import Mathlib

/-!
Verification development for the logo-compositing core of the `diffusion`
repository (`image_helper.py`).  The Python code is shallowly embedded:
PIL images become a record of width, height, color mode and a pixel
function; the PIL primitives used by the code (`convert`, `crop`,
`resize`, `paste`, `getdata`) are modelled after their documented
semantics; Python floats are modelled by exact rationals; Python `//`
on ints is `Int.fdiv`; `int()` on a nonnegative float is the floor.
Fallible steps return `Except`/`Option`, and the `try/except` blocks of
the source become explicit matches on those results.
-/

/-- An RGBA pixel.  Images in single-channel mode `L` store their value in
the `r` field; modes without alpha carry `a = 255` after conversion. -/
structure Pixel where
  r : Nat
  g : Nat
  b : Nat
  a : Nat
deriving DecidableEq, Repr

/-- A decoded in-memory bitmap, as the code receives from PIL: integer
width and height, a color mode string and the pixel data as a function of
(x, y) coordinates (x < width, y < height). -/
structure Img where
  width : Nat
  height : Nat
  mode : String
  px : Nat → Nat → Pixel

/-- Per-pixel part of PIL `Image.convert`, for the modes the code uses
(`L`, `RGB`, `RGBA`): `L` replicates the gray value into the three color
channels; converting to `RGB` drops alpha (forcing `a = 255`); converting
to `RGBA` keeps the source alpha when there is one and is otherwise
opaque. -/
def convertPx (src dst : String) (p : Pixel) : Pixel :=
  let q : Pixel := if src = "L" then ⟨p.r, p.r, p.r, 255⟩ else p
  if dst = "RGB" then ⟨q.r, q.g, q.b, 255⟩
  else if dst = "RGBA" then ⟨q.r, q.g, q.b, if src = "RGBA" then p.a else 255⟩
  else q

/-- PIL `Image.convert`: returns a new image of the same dimensions in the
target mode. -/
def convert (img : Img) (dst : String) : Img :=
  { width := img.width, height := img.height, mode := dst,
    px := fun x y => convertPx img.mode dst (img.px x y) }

/-- The zero (fully transparent black) pixel PIL uses to pad crops that
extend outside the source image. -/
def zeroPixel : Pixel := ⟨0, 0, 0, 0⟩

/-- PIL `Image.crop (left, upper, right, lower)`: a new image of size
`(right - left) × (lower - upper)`; coordinates outside the source image
are padded with zero (black) pixels rather than raising an error. -/
def crop (img : Img) (left upper right lower : Int) : Img :=
  { width := (right - left).toNat, height := (lower - upper).toNat,
    mode := img.mode,
    px := fun x y =>
      let X : Int := left + x
      let Y : Int := upper + y
      if 0 ≤ X ∧ X < img.width ∧ 0 ≤ Y ∧ Y < img.height then
        img.px X.toNat Y.toNat
      else zeroPixel }

/-- Row-major listing of the pixels of a `w × h` grid, as PIL
`Image.getdata` returns them. -/
def rowsList (f : Nat → Nat → Pixel) (w h : Nat) : List Pixel :=
  (List.range h).flatMap fun y => (List.range w).map fun x => f x y

/-- PIL `Image.getdata`: the pixel values in row-major order. -/
def getdata (img : Img) : List Pixel :=
  rowsList img.px img.width img.height

/-- The PIL resampling filters the code distinguishes. -/
inductive Resampling where
  | lanczos
  | nearest
  | bicubic
deriving DecidableEq, Repr

/-- PIL `Image.resize`: a new image of the requested size in the same
mode.  The pixel content of a resampled image is modelled by coordinate
scaling; the claims about `resize` concern only the produced dimensions
and the filter argument, never the interpolated values. -/
def resize (img : Img) (w h : Nat) (filt : Resampling) : Img :=
  { width := w, height := h, mode := img.mode,
    px := fun x y => img.px (x * img.width / w) (y * img.height / h) }

/-- Alpha blend of a source pixel over a destination pixel using the
source alpha as the blend weight, as PIL `paste` with an RGBA mask does. -/
def blendPx (s d : Pixel) : Pixel :=
  ⟨(s.r * s.a + d.r * (255 - s.a)) / 255,
   (s.g * s.a + d.g * (255 - s.a)) / 255,
   (s.b * s.a + d.b * (255 - s.a)) / 255,
   d.a⟩

/-- The image modes PIL accepts as a transparency mask in `paste`. -/
def maskModes : List String := ["1", "L", "LA", "RGBA", "RGBa"]

/-- PIL `Image.paste (src, (px, py), mask := src)` restricted to the
in-bounds data update: pixels inside the pasted box are alpha-blended,
pixels outside are kept. -/
def pasteData (dst src : Img) (pos : Int × Int) : Img :=
  { width := dst.width, height := dst.height, mode := dst.mode,
    px := fun x y =>
      let dx : Int := (x : Int) - pos.1
      let dy : Int := (y : Int) - pos.2
      if 0 ≤ dx ∧ dx < src.width ∧ 0 ≤ dy ∧ dy < src.height then
        blendPx (src.px dx.toNat dy.toNat) (dst.px x y)
      else dst.px x y }

/-- PIL `Image.paste` with `mask := src`: raises `ValueError` ("bad
transparency mask") when the mode of the mask image is not one of the accepted
mask modes; otherwise performs the blended in-place update.  `none`
models the raised exception. -/
def pasteChecked (dst src : Img) (pos : Int × Int) : Option Img :=
  if src.mode ∈ maskModes then some (pasteData dst src pos) else none

/-- Embeds `ImageHelper.get_perceptual_brightness`: perceptual luminance
`0.299·R + 0.587·G + 0.114·B` of an RGB pixel (`image_helper.py`,
lines 206-217), with Python floats modelled by exact rationals. -/
def get_perceptual_brightness (p : Pixel) : ℚ :=
  (299 / 1000) * p.r + (587 / 1000) * p.g + (114 / 1000) * p.b

/-- The threshold cascade of `evaluate_background_brightness`
(`image_helper.py`, lines 249-254): `< 35 → "dark"`,
`35 ≤ · < 45 → "medium"`, otherwise `"light"`. -/
def classify_brightness (avg : ℚ) : String :=
  if avg < 35 then "dark"
  else if 35 ≤ avg ∧ avg < 45 then "medium"
  else "light"

/-- The sampling half of `evaluate_background_brightness`
(`image_helper.py`, lines 232-245): convert the image to RGB, crop the
top-centered `logo_width × logo_height` region at
`((image.width - logo_width) // 2, 20)` and average the perceptual
brightness of its pixels; `none` models the `ZeroDivisionError` raised
by the average when the region holds no pixel. -/
def brightness_sample (image : Img) (logo_width logo_height : Nat) : Option ℚ :=
  let rgb_image := convert image "RGB"
  let logo_x : Int := Int.fdiv ((image.width : Int) - (logo_width : Int)) 2
  let logo_y : Int := 20
  let logo_region := crop rgb_image logo_x logo_y
    (logo_x + (logo_width : Int)) (logo_y + (logo_height : Int))
  let pixels := getdata logo_region
  let total := (pixels.map get_perceptual_brightness).sum
  if pixels.length = 0 then none
  else some (total / (pixels.length : ℚ))

/-- Embeds `ImageHelper.evaluate_background_brightness` (`image_helper.py`,
lines 219-254): classify the average perceptual brightness of the region
where the logo will be placed.  `Except.error` models the uncaught
`ZeroDivisionError` when the sampled region is empty. -/
def evaluate_background_brightness (image : Img) (logo_width logo_height : Nat) :
    Except String String :=
  match brightness_sample image logo_width logo_height with
  | none => Except.error "ZeroDivisionError"
  | some avg => Except.ok (classify_brightness avg)

/-- Embeds `ImageHelper.evaluate_background_for_logo_selection`
(`image_helper.py`, lines 179-204).  The filesystem is modelled by
`assets : String → Option Img`, mapping a path to the decoded image
`Image.open` yields there, or `none` when opening or decoding fails.
The surrounding `try/except` turns any failure — the reference logo
`medium_logo.png` missing as well as an error inside
`evaluate_background_brightness` — into the default `"medium"`. -/
def evaluate_background_for_logo_selection (assets : String → Option Img)
    (image : Img) : String :=
  match assets "medium_logo.png" with
  | none => "medium"
  | some logo =>
    match evaluate_background_brightness image logo.width logo.height with
    | Except.error _ => "medium"
    | Except.ok level => level

/-- Models `os.path.join` for the two-component paths the code builds. -/
def joinPath (folder name : String) : String := folder ++ "/" ++ name

/-- The overlay-asset path selection of `add_logo_to_image`
(`image_helper.py`, lines 268-278): `"dark"` backgrounds get
`light_logo.png`, every other classification gets `dark_logo.png`;
outside hex mode the name is joined to the logo folder. -/
def logoPathFor (logo_folder : String) (hex_mode : Bool)
    (image_lightness : String) : String :=
  if image_lightness = "dark" then
    if hex_mode then "light_logo.png" else joinPath logo_folder "light_logo.png"
  else
    if hex_mode then "dark_logo.png" else joinPath logo_folder "dark_logo.png"

/-- Python `int()` of a nonnegative float, i.e. the floor. -/
def ratFloorNat (q : ℚ) : Nat := (⌊q⌋).toNat

/-- The overlay scaling of `add_logo_to_image` (`image_helper.py`, lines
283-288): target width `image.width // 2` and height
`int(max_logo_width / (logo.width / logo.height))`. -/
def scaled_logo_dims (bg_width logo_w logo_h : Nat) : Nat × Nat :=
  let max_logo_width := bg_width / 2
  (max_logo_width,
   ratFloorNat ((max_logo_width : ℚ) / ((logo_w : ℚ) / (logo_h : ℚ))))

/-- The resampling filter `add_logo_to_image` passes to `resize`
(`image_helper.py`, line 288): `Image.Resampling.LANCZOS`. -/
def logoResizeFilterUsed : Resampling := Resampling.lanczos

/-- The placement origin of `add_logo_to_image` (`image_helper.py`,
lines 291-292): horizontally centered, 20 pixels from the top. -/
def logo_paste_pos (bg_width scaled_w : Nat) : Int × Int :=
  (Int.fdiv ((bg_width : Int) - (scaled_w : Int)) 2, 20)

/-- Embeds `ImageHelper.add_logo_to_image` (`image_helper.py`, lines 256-305).
The `try` body is followed faithfully: select and open the overlay asset,
scale it to half the background width with LANCZOS, convert the
background to RGBA, paste the overlay with itself as the transparency
mask, and convert the result to RGB.  Each failure the Python can raise
returns what the `except` branch returns at that point.  Before the
`image = image.convert("RGBA")` rebinding at line 295 the image of the
caller is returned: asset missing or undecodable, a zero logo dimension
making `logo.width / logo.height` or `max_logo_width / logo_ratio`
raise `ZeroDivisionError` at lines 285-286, and a zero scaled target
dimension (background narrower than 2 pixels, or the aspect-ratio
quotient truncating to 0) making Pillow `resize` raise
`ValueError` (height and width must be greater than 0) at line 287.
A `ValueError` from `paste` (overlay mode unusable as a transparency
mask) happens after the rebinding, so the RGBA-converted copy is
returned. -/
def add_logo_to_image (assets : String → Option Img) (logo_folder : String)
    (hex_mode : Bool) (image : Img) (image_lightness : String) : Img :=
  match assets (logoPathFor logo_folder hex_mode image_lightness) with
  | none => image
  | some logo =>
    if logo.width = 0 ∨ logo.height = 0 then image
    else
      let dims := scaled_logo_dims image.width logo.width logo.height
      if dims.1 = 0 ∨ dims.2 = 0 then image
      else
        let logo2 := resize logo dims.1 dims.2 logoResizeFilterUsed
        let rebound := convert image "RGBA"
        match pasteChecked rebound logo2 (logo_paste_pos image.width dims.1) with
        | none => rebound
        | some pasted => convert pasted "RGB"

/-!
Object-identity model

Python PIL images are heap objects: `convert`, `crop`, `resize` and
`Image.open` each return a fresh object, while `paste` mutates its
receiver in place.  To settle claims about mutation of the image the
caller passed in, the two entry points are replayed over an explicit store of
image objects indexed by identity. -/

/-- A heap of PIL image objects: `next` is the next fresh identity,
`dat` maps identities to image data. -/
structure PStore where
  next : Nat
  dat : Nat → Option Img

/-- Allocate a fresh image object (what `Image.open`, `convert`, `crop`
and `resize` do) and return its identity. -/
def alloc (s : PStore) (img : Img) : PStore × Nat :=
  (⟨s.next + 1, fun i => if i = s.next then some img else s.dat i⟩, s.next)

/-- Overwrite an existing object in place (what `paste` does to its
receiver). -/
def setAt (s : PStore) (i : Nat) (img : Img) : PStore :=
  ⟨s.next, fun j => if j = i then some img else s.dat j⟩

/-- The function `evaluate_background_brightness` replayed on the object store: the
input object `iid` is only read; `image.convert("RGB")` and
`rgb_image.crop(...)` allocate fresh objects and nothing is written in
place. -/
def evaluate_background_brightness_st (s : PStore) (iid : Nat)
    (logo_width logo_height : Nat) : PStore × Except String String :=
  match s.dat iid with
  | none => (s, Except.error "missing object")
  | some image =>
    let rgb_image := convert image "RGB"
    let s1 := (alloc s rgb_image).1
    let logo_x : Int := Int.fdiv ((image.width : Int) - (logo_width : Int)) 2
    let s2 := (alloc s1 (crop rgb_image logo_x 20
      (logo_x + (logo_width : Int)) (20 + (logo_height : Int)))).1
    (s2, evaluate_background_brightness image logo_width logo_height)

/-- The function `add_logo_to_image` replayed on the object store: `Image.open`,
`resize` and the two `convert` calls allocate fresh objects;
`image.paste(...)` overwrites the RGBA copy in place; the input object
`iid` is never written.  The returned identity is the object the Python
function returns — in particular, on the error paths that return before
the RGBA rebinding (asset missing, zero logo dimension, Pillow `resize`
raising on a zero scaled target dimension) it is the identity of the
input object itself, and after the raise at `resize` only the opened
logo object has been allocated. -/
def add_logo_to_image_st (assets : String → Option Img) (logo_folder : String)
    (hex_mode : Bool) (s : PStore) (iid : Nat) (image_lightness : String) :
    PStore × Nat :=
  match s.dat iid with
  | none => (s, iid)
  | some image =>
    match assets (logoPathFor logo_folder hex_mode image_lightness) with
    | none => (s, iid)
    | some logo =>
      let s0 := (alloc s logo).1
      if logo.width = 0 ∨ logo.height = 0 then (s0, iid)
      else
        let dims := scaled_logo_dims image.width logo.width logo.height
        if dims.1 = 0 ∨ dims.2 = 0 then (s0, iid)
        else
        let logo2 := resize logo dims.1 dims.2 logoResizeFilterUsed
        let s1 := (alloc s0 logo2).1
        let rebound := convert image "RGBA"
        let a2 := alloc s1 rebound
        match pasteChecked rebound logo2 (logo_paste_pos image.width dims.1) with
        | none => (a2.1, a2.2)
        | some pasted =>
          let s3 := setAt a2.1 a2.2 pasted
          let a4 := alloc s3 (convert pasted "RGB")
          (a4.1, a4.2)

/-!
Glow rendering mode

Modelled from the spec: the glow rendering variant of §4.5 is not in
`src/` — only the unused `ImageFilter` and `ImageDraw` imports remain at
`image_helper.py` line 6 — so its pipeline is reconstructed from the
words of the spec, and the claims about it are settled against that
model. -/

/-- Modelled from the spec: the two mutually exclusive rendering
strategies, chosen by caller configuration. -/
inductive RenderMode where
  | plain
  | glow
deriving DecidableEq, Repr

/-- Modelled from the spec: the transparent canvas carrying the filled
ellipse is sized `(overlay.width + 600, overlay.height + 400)`. -/
def glowCanvasSize (ov : Img) : Nat × Nat := (ov.width + 600, ov.height + 400)

/-- Modelled from the spec: the blur radius applied to the glow canvas. -/
def glowBlurRadius : Nat := 100

/-- Modelled from the spec: the fixed inset of the overlay from the glow
canvas origin. -/
def glowInset : Nat × Nat := (100, 100)

/-- Modelled from the spec: a transparent RGBA canvas with a filled white
ellipse inscribed in it (pixel centers inside the inscribed ellipse are
opaque white, the rest transparent). -/
def ellipseCanvas (w h : Nat) : Img :=
  { width := w, height := h, mode := "RGBA",
    px := fun x y =>
      if ((2 * x + 1 : Int) - w) ^ 2 * (h : Int) ^ 2
          + ((2 * y + 1 : Int) - h) ^ 2 * (w : Int) ^ 2
          ≤ (w : Int) ^ 2 * (h : Int) ^ 2 then ⟨255, 255, 255, 255⟩
      else zeroPixel }

/-- Modelled from the spec: a uniform box blur of the given radius,
standing in for the strong Gaussian-class blur that diffuses the glow. -/
def boxBlur (img : Img) (radius : Nat) : Img :=
  { width := img.width, height := img.height, mode := img.mode,
    px := fun x y =>
      let side := 2 * radius + 1
      let win := rowsList
        (fun dx dy =>
          let X : Int := (x : Int) + dx - radius
          let Y : Int := (y : Int) + dy - radius
          if 0 ≤ X ∧ X < img.width ∧ 0 ≤ Y ∧ Y < img.height then
            img.px X.toNat Y.toNat
          else zeroPixel) side side
      ⟨(win.map Pixel.r).sum / (side * side),
       (win.map Pixel.g).sum / (side * side),
       (win.map Pixel.b).sum / (side * side),
       (win.map Pixel.a).sum / (side * side)⟩ }

/-- Modelled from the spec: where the glow canvas lands on the
background — horizontally centered, at the same fixed top margin of 20
as the plain-paste mode. -/
def glowPos (bg ov : Img) : Int × Int :=
  (Int.fdiv ((bg.width : Int) - ((glowCanvasSize ov).1 : Int)) 2, 20)

/-- Modelled from the spec: where the overlay lands — offset by the
fixed inset from the glow canvas origin. -/
def glowOverlayPos (bg ov : Img) : Int × Int :=
  ((glowPos bg ov).1 + (glowInset.1 : Int), (glowPos bg ov).2 + (glowInset.2 : Int))

/-- Modelled from the spec: the glow rendering mode — draw the filled
ellipse on the transparent canvas, blur it with radius 100, composite
the glow layer onto the background, then composite the overlay on top at
the fixed inset. -/
def renderWithGlow (bg ov : Img) : Img :=
  let canvas := ellipseCanvas (glowCanvasSize ov).1 (glowCanvasSize ov).2
  let glowLayer := boxBlur canvas glowBlurRadius
  let base := pasteData (convert bg "RGBA") glowLayer (glowPos bg ov)
  convert (pasteData base ov (glowOverlayPos bg ov)) "RGB"

/-- Modelled from the spec: caller configuration selects exactly one of
the two rendering strategies; they are never combined. -/
def renderLogo (mode : RenderMode) (assets : String → Option Img)
    (logo_folder : String) (hex_mode : Bool) (bg : Img) (ov : Img)
    (image_lightness : String) : Img :=
  match mode with
  | RenderMode.plain => add_logo_to_image assets logo_folder hex_mode bg image_lightness
  | RenderMode.glow => renderWithGlow bg ov

/-!
Spec-side definitions

For the refinement-flavored claims, a second definition written from the
words of the spec, to be compared with the one embedded from the
source. -/

/-- Spec-side (§4.1 / C3): the arithmetic mean, over every pixel of the
rectangle with origin `((backgroundWidth - regionWidth) / 2, 20)` and
extent `regionWidth × regionHeight`, of the perceptual luminance of the
pixel after conversion to RGB. -/
def specMeanLuma (image : Img) (w h : Nat) : ℚ :=
  let x0 := (image.width - w) / 2
  (∑ p in Finset.range w ×ˢ Finset.range h,
    get_perceptual_brightness ((convert image "RGB").px (x0 + p.1) (20 + p.2)))
    / ((w * h : Nat) : ℚ)

/-- Spec-side (§4.4 / C4): the scaled overlay height as the claim words
it, `round(newWidth / (overlay.width / overlay.height))`. -/
def roundHeightSpec (bg_width logo_w logo_h : Nat) : Nat :=
  (round (((bg_width / 2 : Nat) : ℚ) / ((logo_w : ℚ) / (logo_h : ℚ)))).toNat

/-!
Concrete fixtures

Small concrete images and asset stores used to instantiate the theorems
below at closed inputs. -/

/-- A 40 × 60 solid-color RGB background. -/
def bgSmall : Img :=
  { width := 40, height := 60, mode := "RGB", px := fun _ _ => ⟨200, 10, 60, 255⟩ }

/-- A 5 × 5 all-white RGB image; too short for the 20-pixel top margin. -/
def smallWhite : Img :=
  { width := 5, height := 5, mode := "RGB", px := fun _ _ => ⟨255, 255, 255, 255⟩ }

/-- A 40 × 60 single-channel (mode `L`) background. -/
def grayBg : Img :=
  { width := 40, height := 60, mode := "L", px := fun _ _ => ⟨90, 0, 0, 0⟩ }

/-- A 4 × 2 RGBA logo asset (usable as its own transparency mask). -/
def rgbaLogo : Img :=
  { width := 4, height := 2, mode := "RGBA", px := fun _ _ => ⟨255, 255, 255, 128⟩ }

/-- A 4 × 2 RGB logo asset: PIL refuses an RGB image as a transparency
mask, so pasting it with itself as the mask raises `ValueError`. -/
def rgbLogo : Img :=
  { width := 4, height := 2, mode := "RGB", px := fun _ _ => ⟨10, 10, 10, 255⟩ }

/-- A 3 × 24 RGB image with a pixel-dependent gradient. -/
def gradientBg : Img :=
  { width := 3, height := 24, mode := "RGB", px := fun x y => ⟨x * 10, y, 100, 255⟩ }

/-- A filesystem with no readable image at any path. -/
def assetsNone : String → Option Img := fun _ => none

/-- A filesystem holding exactly one decodable image at one path. -/
def assetsWith (path : String) (logo : Img) : String → Option Img :=
  fun p => if p = path then some logo else none

/-- An object store holding `bgSmall` as object 0. -/
def store0 : PStore :=
  ⟨1, fun i => if i = 0 then some bgSmall else none⟩

/-!
Helper lemmas -/

theorem sum_list_range {M : Type} [AddCommMonoid M] (f : Nat → M) (n : Nat) :
    ((List.range n).map f).sum = ∑ x in Finset.range n, f x := by
  induction n with
  | zero => simp
  | succ k ih => simp [List.range_succ, Finset.sum_range_succ, ih]

theorem rowsList_succ (f : Nat → Nat → Pixel) (w h : Nat) :
    rowsList f w (h + 1)
      = rowsList f w h ++ (List.range w).map (fun x => f x h) := by
  simp [rowsList, List.range_succ]

theorem rowsList_length (f : Nat → Nat → Pixel) (w h : Nat) :
    (rowsList f w h).length = w * h := by
  induction h with
  | zero => simp [rowsList]
  | succ k ih => simp [rowsList_succ, ih, Nat.mul_succ]

theorem rowsList_map_sum (B : Pixel → ℚ) (f : Nat → Nat → Pixel) (w h : Nat) :
    ((rowsList f w h).map B).sum
      = ∑ y in Finset.range h, ∑ x in Finset.range w, B (f x y) := by
  induction h with
  | zero => simp [rowsList]
  | succ k ih =>
    rw [rowsList_succ, List.map_append, List.sum_append, ih,
      Finset.sum_range_succ, List.map_map]
    rw [show ((List.range w).map (B ∘ fun x => f x k)).sum
      = ∑ x in Finset.range w, B (f x k) from sum_list_range _ w]

theorem fdiv_two_of_le (W w : Nat) (hw : w ≤ W) :
    Int.fdiv ((W : Int) - (w : Int)) 2 = (((W - w) / 2 : Nat) : Int) := by
  rw [Int.fdiv_eq_ediv _ (by norm_num)]
  omega

/-- The cropped sampling region is exactly `w × h` pixels. -/
theorem crop_region_size (img : Img) (left upper : Int) (w h : Nat) :
    (crop img left upper (left + (w : Int)) (upper + (h : Int))).width = w
      ∧ (crop img left upper (left + (w : Int)) (upper + (h : Int))).height = h := by
  refine ⟨?_, ?_⟩ <;> · simp only [crop]; omega

/-- Inside the image, the cropped region reads the source pixel shifted
by the crop origin. -/
theorem crop_px_in_bounds (img : Img) (left upper : Int) (w h x y : Nat)
    (hx0 : 0 ≤ left + (x : Int)) (hxW : left + (x : Int) < img.width)
    (hy0 : 0 ≤ upper + (y : Int)) (hyH : upper + (y : Int) < img.height) :
    (crop img left upper (left + (w : Int)) (upper + (h : Int))).px x y
      = img.px (left + (x : Int)).toNat (upper + (y : Int)).toNat := by
  simp only [crop]
  rw [if_pos ⟨hx0, hxW, hy0, hyH⟩]

/-- Closed form of the sampling half of `evaluate_background_brightness`
when the region fits inside the image: the sample is the mean of the
perceptual luminance over the cropped rectangle, and the crop introduces
no padded pixel. -/
theorem brightness_sample_eq (image : Img) (w h : Nat)
    (hw : w ≤ image.width) (hh : 20 + h ≤ image.height) :
    brightness_sample image w h =
      if w * h = 0 then none
      else some ((∑ y in Finset.range h, ∑ x in Finset.range w,
        get_perceptual_brightness
          ((convert image "RGB").px ((image.width - w) / 2 + x) (20 + y)))
        / ((w * h : Nat) : ℚ)) := by
  have hx : Int.fdiv ((image.width : Int) - (w : Int)) 2
      = (((image.width - w) / 2 : Nat) : Int) := fdiv_two_of_le _ _ hw
  have hrgbW : (convert image "RGB").width = image.width := rfl
  have hrgbH : (convert image "RGB").height = image.height := rfl
  have hsz := crop_region_size (convert image "RGB")
    ((((image.width - w) / 2 : Nat) : Int)) 20 w h
  simp only [brightness_sample, getdata, hx, hsz.1, hsz.2, rowsList_length,
    rowsList_map_sum]
  have hpt : (∑ y in Finset.range h, ∑ x in Finset.range w,
      get_perceptual_brightness
        ((crop (convert image "RGB") ((((image.width - w) / 2 : Nat) : Int)) 20
          ((((image.width - w) / 2 : Nat) : Int) + (w : Int))
          (20 + (h : Int))).px x y))
      = ∑ y in Finset.range h, ∑ x in Finset.range w,
        get_perceptual_brightness
          ((convert image "RGB").px ((image.width - w) / 2 + x) (20 + y)) := by
    refine Finset.sum_congr rfl fun y hy => Finset.sum_congr rfl fun x hxr => ?_
    have hyh : y < h := Finset.mem_range.mp hy
    have hxw : x < w := Finset.mem_range.mp hxr
    rw [crop_px_in_bounds (convert image "RGB") _ 20 w h x y
      (by omega) (by rw [hrgbW]; omega) (by omega) (by rw [hrgbH]; omega)]
    have h1 : (((((image.width - w) / 2 : Nat) : Int)) + (x : Int)).toNat
        = (image.width - w) / 2 + x := by omega
    have h2 : ((20 : Int) + (y : Int)).toNat = 20 + y := by omega
    rw [h1, h2]
  rw [hpt]

/-!
Claim theorems -/

/-- C1: for every brightness sample `s` the classifier returns `"dark"`
exactly when `s < 35`, `"medium"` exactly when `35 ≤ s < 45` and
`"light"` exactly when `s ≥ 45`; in particular the six boundary samples
0, 34.999, 35, 44.999, 45 and 255 classify as dark, dark, medium,
medium, light and light. -/
theorem C1_classifier_thresholds :
    (∀ s : ℚ, (classify_brightness s = "dark" ↔ s < 35)
      ∧ (classify_brightness s = "medium" ↔ 35 ≤ s ∧ s < 45)
      ∧ (classify_brightness s = "light" ↔ 45 ≤ s))
    ∧ classify_brightness 0 = "dark"
    ∧ classify_brightness (34.999 : ℚ) = "dark"
    ∧ classify_brightness 35 = "medium"
    ∧ classify_brightness (44.999 : ℚ) = "medium"
    ∧ classify_brightness 45 = "light"
    ∧ classify_brightness 255 = "light" := by
  refine ⟨fun s => ?_, by norm_num [classify_brightness],
    by norm_num [classify_brightness], by norm_num [classify_brightness],
    by norm_num [classify_brightness], by norm_num [classify_brightness],
    by norm_num [classify_brightness]⟩
  unfold classify_brightness
  split_ifs with h1 h2
  · exact ⟨⟨fun _ => h1, fun _ => rfl⟩,
      ⟨fun hc => absurd hc (by decide), fun hc => absurd h1 (not_lt.mpr hc.1)⟩,
      ⟨fun hc => absurd hc (by decide), fun hc => absurd h1 (by linarith)⟩⟩
  · exact ⟨⟨fun hc => absurd hc (by decide), fun hc => absurd hc h1⟩,
      ⟨fun _ => h2, fun _ => rfl⟩,
      ⟨fun hc => absurd hc (by decide), fun hc => absurd h2.2 (not_lt.mpr hc)⟩⟩
  · push_neg at h1 h2
    have h45 : 45 ≤ s := h2 h1
    exact ⟨⟨fun hc => absurd hc (by decide), fun hc => absurd hc (not_lt.mpr h1)⟩,
      ⟨fun hc => absurd hc (by decide), fun hc => absurd hc.2 (not_lt.mpr h45)⟩,
      ⟨fun _ => h45, fun _ => rfl⟩⟩

/-- C2: the overlay-path selection of `add_logo_to_image` maps the
`"dark"` classification to the `light_logo` asset and every other
classification — `"medium"` and `"light"` included — to the `dark_logo`
asset. -/
theorem C2_overlay_selection (folder : String) (hm : Bool) (cls : String) :
    (cls = "dark" →
      logoPathFor folder hm cls
        = (if hm then "light_logo.png" else joinPath folder "light_logo.png"))
    ∧ (cls ≠ "dark" →
      logoPathFor folder hm cls
        = (if hm then "dark_logo.png" else joinPath folder "dark_logo.png")) := by
  constructor
  · intro hc
    simp [logoPathFor, hc]
  · intro hc
    simp [logoPathFor, hc]

/-- Witness for C2 at the three classification values, outside hex
mode. -/
theorem C2_overlay_selection_witness :
    (("medium" : String) ≠ "dark" ∧ ("light" : String) ≠ "dark")
    ∧ logoPathFor "logo" false "dark" = joinPath "logo" "light_logo.png"
    ∧ logoPathFor "logo" false "medium" = joinPath "logo" "dark_logo.png"
    ∧ logoPathFor "logo" false "light" = joinPath "logo" "dark_logo.png" := by
  refine ⟨⟨by decide, by decide⟩, ?_, ?_, ?_⟩
  · simpa using (C2_overlay_selection "logo" false "dark").1 rfl
  · simpa using (C2_overlay_selection "logo" false "medium").2 (by decide)
  · simpa using (C2_overlay_selection "logo" false "light").2 (by decide)

/-- C3: under the §4.1 precondition (region of area at least 1 fitting
inside the image below the 20-pixel top margin), the brightness sample
of `evaluate_background_brightness` equals the arithmetic mean of the
perceptual luminance `0.299·R + 0.587·G + 0.114·B`, taken over every
pixel of the rectangle with origin
`((backgroundWidth - regionWidth) / 2, 20)` and extent
`regionWidth × regionHeight` of the RGB-converted image, and the
returned classification is the classifier applied to that mean. -/
theorem C3_sample_is_mean_luma (image : Img) (w h : Nat)
    (hw1 : 1 ≤ w) (hh1 : 1 ≤ h)
    (hw : w ≤ image.width) (hh : 20 + h ≤ image.height) :
    brightness_sample image w h = some (specMeanLuma image w h)
    ∧ evaluate_background_brightness image w h
      = Except.ok (classify_brightness (specMeanLuma image w h)) := by
  have hs := brightness_sample_eq image w h hw hh
  rw [if_neg (by simp only [Nat.mul_eq_zero]; omega : ¬ w * h = 0)] at hs
  have hspec : specMeanLuma image w h
      = (∑ y in Finset.range h, ∑ x in Finset.range w,
          get_perceptual_brightness
            ((convert image "RGB").px ((image.width - w) / 2 + x) (20 + y)))
        / ((w * h : Nat) : ℚ) := by
    simp only [specMeanLuma, Finset.sum_product]
    rw [Finset.sum_comm]
  refine ⟨by rw [hs, hspec], ?_⟩
  rw [evaluate_background_brightness, hs, hspec]

/-- Witness for C3: a 2 × 3 region of the 3 × 24 gradient image. -/
theorem C3_sample_is_mean_luma_witness :
    (1 ≤ 2 ∧ 1 ≤ 3 ∧ 2 ≤ gradientBg.width ∧ 20 + 3 ≤ gradientBg.height)
    ∧ brightness_sample gradientBg 2 3 = some (specMeanLuma gradientBg 2 3) :=
  ⟨⟨by decide, by decide, by decide, by decide⟩,
    (C3_sample_is_mean_luma gradientBg 2 3 (by decide) (by decide)
      (by decide) (by decide)).1⟩

/-- Division of casts as floors: Python `int(a / b)` on nonnegative
operands is natural division. -/
theorem ratFloorNat_div_eq_div (a b : Nat) :
    ratFloorNat ((a : ℚ) / (b : ℚ)) = a / b := by
  unfold ratFloorNat
  rw [Int.floor_toNat, Nat.floor_div_eq_div]

/-- The scaled overlay height computed by `add_logo_to_image` is the
truncated quotient `(bg_width / 2) * logo_h / logo_w`. -/
theorem scaled_logo_dims_eq (bg_width logo_w logo_h : Nat)
    (hlw : 1 ≤ logo_w) (hlh : 1 ≤ logo_h) :
    scaled_logo_dims bg_width logo_w logo_h
      = (bg_width / 2, bg_width / 2 * logo_h / logo_w) := by
  have hq : ((bg_width / 2 : Nat) : ℚ) / ((logo_w : ℚ) / (logo_h : ℚ))
      = ((bg_width / 2 * logo_h : Nat) : ℚ) / ((logo_w : Nat) : ℚ) := by
    have hw0 : ((logo_w : ℚ)) ≠ 0 := by positivity
    have hh0 : ((logo_h : ℚ)) ≠ 0 := by positivity
    push_cast
    field_simp
  simp only [scaled_logo_dims, hq, ratFloorNat_div_eq_div]

/-- C4, counterexample: for a 9-pixel-wide background and a 3 × 2
overlay the code computes scaled height `int(4 / 1.5) = 2`, while the
round formula of the claim, `round(newWidth / (overlay.width / overlay.height))`, gives
`round(8/3) = 3`. -/
theorem C4_counterexample_round_height :
    scaled_logo_dims 9 3 2 = (4, 2)
    ∧ roundHeightSpec 9 3 2 = 3
    ∧ (2 : Nat) ≠ 3 := by
  refine ⟨?_, ?_, by decide⟩
  · norm_num [scaled_logo_dims, ratFloorNat]
    rfl
  · norm_num [roundHeightSpec, round_eq]
    rfl

/-- C4, amended: `add_logo_to_image` scales the overlay to width
`background.width / 2` (integer division) and height
`int(newWidth / (overlay.width / overlay.height))` — the aspect-ratio
quotient truncated, not rounded to nearest — with the LANCZOS (not
nearest-neighbor) filter, and pastes it at
`x = (background.width - scaledWidth) // 2`, `y = 20`. -/
theorem C4_scaling_geometry (assets : String → Option Img) (folder : String)
    (hm : Bool) (image logo : Img) (cls : String)
    (hassets : assets (logoPathFor folder hm cls) = some logo)
    (hlw : 1 ≤ logo.width) (hlh : 1 ≤ logo.height) :
    scaled_logo_dims image.width logo.width logo.height
      = (image.width / 2, image.width / 2 * logo.height / logo.width)
    ∧ logo_paste_pos image.width (image.width / 2)
      = ((((image.width - image.width / 2) / 2 : Nat) : Int), 20)
    ∧ logoResizeFilterUsed = Resampling.lanczos
    ∧ Resampling.lanczos ≠ Resampling.nearest
    ∧ (∀ pasted,
        (scaled_logo_dims image.width logo.width logo.height).1 ≠ 0 →
        (scaled_logo_dims image.width logo.width logo.height).2 ≠ 0 →
        pasteChecked (convert image "RGBA")
          (resize logo (scaled_logo_dims image.width logo.width logo.height).1
            (scaled_logo_dims image.width logo.width logo.height).2
            logoResizeFilterUsed)
          (logo_paste_pos image.width
            (scaled_logo_dims image.width logo.width logo.height).1)
          = some pasted →
        add_logo_to_image assets folder hm image cls = convert pasted "RGB") := by
  refine ⟨scaled_logo_dims_eq image.width logo.width logo.height hlw hlh,
    ?_, rfl, by decide, ?_⟩
  · simp only [logo_paste_pos]
    rw [fdiv_two_of_le _ _ (Nat.div_le_self _ _)]
  · intro pasted hd1 hd2 hpaste
    simp only [add_logo_to_image, hassets]
    rw [if_neg (by omega), if_neg (fun hc => hc.elim hd1 hd2)]
    simp only [hpaste]

/-- Witness for C4 at a 40-pixel background and the 4 × 2 RGBA logo. -/
theorem C4_scaling_geometry_witness :
    (assetsWith (joinPath "logo" "dark_logo.png") rgbaLogo
        (logoPathFor "logo" false "light") = some rgbaLogo
      ∧ 1 ≤ rgbaLogo.width ∧ 1 ≤ rgbaLogo.height)
    ∧ scaled_logo_dims bgSmall.width rgbaLogo.width rgbaLogo.height
      = (bgSmall.width / 2,
         bgSmall.width / 2 * rgbaLogo.height / rgbaLogo.width) :=
  ⟨⟨rfl, by decide, by decide⟩,
    (C4_scaling_geometry (assetsWith (joinPath "logo" "dark_logo.png") rgbaLogo)
      "logo" false bgSmall rgbaLogo "light" rfl (by decide) (by decide)).1⟩

/-- C5, counterexample: with the selected overlay present but decoded in
RGB mode, pasting raises `ValueError` (an RGB image is not a valid
transparency mask); the `except` branch then returns the local variable
`image`, which was already rebound to the RGBA-converted copy — so the
caller gets an RGBA image, not the original RGB background. -/
theorem C5_counterexample_blend_failure :
    add_logo_to_image (assetsWith (joinPath "logo" "dark_logo.png") rgbLogo)
        "logo" false bgSmall "light"
      = convert bgSmall "RGBA"
    ∧ (add_logo_to_image (assetsWith (joinPath "logo" "dark_logo.png") rgbLogo)
        "logo" false bgSmall "light").mode = "RGBA"
    ∧ bgSmall.mode = "RGB"
    ∧ ("RGBA" : String) ≠ "RGB" := by
  have hdims : scaled_logo_dims bgSmall.width rgbLogo.width rgbLogo.height
      = (20, 10) := by
    rw [scaled_logo_dims_eq bgSmall.width rgbLogo.width rgbLogo.height
      (by decide) (by decide)]
    decide
  have hassets : assetsWith (joinPath "logo" "dark_logo.png") rgbLogo
      (logoPathFor "logo" false "light") = some rgbLogo := rfl
  have hrun : add_logo_to_image (assetsWith (joinPath "logo" "dark_logo.png") rgbLogo)
      "logo" false bgSmall "light" = convert bgSmall "RGBA" := by
    simp only [add_logo_to_image, hassets, hdims]
    rw [if_neg (by decide), if_neg (by decide)]
    rw [show pasteChecked (convert bgSmall "RGBA")
        (resize rgbLogo (20, 10).1 (20, 10).2 logoResizeFilterUsed)
        (logo_paste_pos bgSmall.width (20, 10).1) = none from rfl]
  exact ⟨hrun, by rw [hrun]; rfl, rfl, by decide⟩

/-- C5, amended: no failure of `add_logo_to_image` escapes to the
caller.  A failure before the background is converted — missing or
undecodable overlay asset, a degenerate overlay dimension, or a zero
scaled target dimension making Pillow `resize` raise — returns the
original background unchanged; a failure while blending (the pasted
overlay unusable as its own transparency mask) is also caught but
returns the RGBA-converted copy of the background, the value the local
variable holds at that point; and every call returns one of the
original, its RGBA copy, or a successful composite. -/
theorem C5_failure_returns_background (assets : String → Option Img)
    (folder : String) (hm : Bool) (image : Img) (cls : String) :
    (assets (logoPathFor folder hm cls) = none →
      add_logo_to_image assets folder hm image cls = image)
    ∧ (∀ logo, assets (logoPathFor folder hm cls) = some logo →
        logo.width = 0 ∨ logo.height = 0 →
        add_logo_to_image assets folder hm image cls = image)
    ∧ (∀ logo, assets (logoPathFor folder hm cls) = some logo →
        1 ≤ logo.width → 1 ≤ logo.height →
        (scaled_logo_dims image.width logo.width logo.height).1 = 0
          ∨ (scaled_logo_dims image.width logo.width logo.height).2 = 0 →
        add_logo_to_image assets folder hm image cls = image)
    ∧ (∀ logo, assets (logoPathFor folder hm cls) = some logo →
        1 ≤ logo.width → 1 ≤ logo.height →
        (scaled_logo_dims image.width logo.width logo.height).1 ≠ 0 →
        (scaled_logo_dims image.width logo.width logo.height).2 ≠ 0 →
        logo.mode ∉ maskModes →
        add_logo_to_image assets folder hm image cls = convert image "RGBA")
    ∧ (add_logo_to_image assets folder hm image cls = image
        ∨ add_logo_to_image assets folder hm image cls = convert image "RGBA"
        ∨ ∃ pasted, add_logo_to_image assets folder hm image cls
            = convert pasted "RGB") := by
  refine ⟨?_, ?_, ?_, ?_, ?_⟩
  · intro hnone
    simp [add_logo_to_image, hnone]
  · intro logo hsome hdeg
    simp [add_logo_to_image, hsome, if_pos hdeg]
  · intro logo hsome hlw hlh hdz
    simp only [add_logo_to_image, hsome]
    rw [if_neg (by omega), if_pos hdz]
  · intro logo hsome hlw hlh hd1 hd2 hmask
    have hmode : (resize logo
        (scaled_logo_dims image.width logo.width logo.height).1
        (scaled_logo_dims image.width logo.width logo.height).2
        logoResizeFilterUsed).mode = logo.mode := rfl
    simp only [add_logo_to_image, hsome]
    rw [if_neg (by omega), if_neg (fun hc => hc.elim hd1 hd2)]
    simp only [pasteChecked, hmode, if_neg hmask]
  · cases hassets : assets (logoPathFor folder hm cls) with
    | none => left; simp [add_logo_to_image, hassets]
    | some logo =>
      by_cases hdeg : logo.width = 0 ∨ logo.height = 0
      · left
        simp [add_logo_to_image, hassets, if_pos hdeg]
      · by_cases hdz : (scaled_logo_dims image.width logo.width logo.height).1 = 0
            ∨ (scaled_logo_dims image.width logo.width logo.height).2 = 0
        · left
          simp only [add_logo_to_image, hassets, if_neg hdeg]
          rw [if_pos hdz]
        · simp only [add_logo_to_image, hassets, if_neg hdeg, if_neg hdz]
          cases hp : pasteChecked (convert image "RGBA")
              (resize logo (scaled_logo_dims image.width logo.width logo.height).1
                (scaled_logo_dims image.width logo.width logo.height).2
                logoResizeFilterUsed)
              (logo_paste_pos image.width
                (scaled_logo_dims image.width logo.width logo.height).1) with
          | none => right; left; simp [hp]
          | some pasted => right; right; exact ⟨pasted, by simp [hp]⟩

/-- Witness for C5 with no asset present: the original background comes
back untouched. -/
theorem C5_failure_returns_background_witness :
    assetsNone (logoPathFor "logo" false "light") = none
    ∧ add_logo_to_image assetsNone "logo" false bgSmall "light" = bgSmall :=
  ⟨rfl, (C5_failure_returns_background assetsNone "logo" false bgSmall "light").1 rfl⟩

/-- C6: `evaluate_background_for_logo_selection` never raises — when the
reference overlay `medium_logo.png` cannot be loaded, or any error
occurs while evaluating the brightness, it returns the default
classification `"medium"`; and the `"medium"` outcome selects the same
overlay asset as `"light"`, so placement proceeds with the default
asset. -/
theorem C6_defaults_to_medium (assets : String → Option Img) (image : Img) :
    (assets "medium_logo.png" = none →
      evaluate_background_for_logo_selection assets image = "medium")
    ∧ (∀ logo err, assets "medium_logo.png" = some logo →
        evaluate_background_brightness image logo.width logo.height
          = Except.error err →
        evaluate_background_for_logo_selection assets image = "medium")
    ∧ (∀ folder hm,
        logoPathFor folder hm "medium" = logoPathFor folder hm "light") := by
  refine ⟨?_, ?_, fun folder hm => rfl⟩
  · intro hnone
    simp [evaluate_background_for_logo_selection, hnone]
  · intro logo err hsome herr
    simp [evaluate_background_for_logo_selection, hsome, herr]

/-- Witness for C6 with no readable `medium_logo.png`. -/
theorem C6_defaults_to_medium_witness :
    assetsNone "medium_logo.png" = none
    ∧ evaluate_background_for_logo_selection assetsNone bgSmall = "medium" :=
  ⟨rfl, (C6_defaults_to_medium assetsNone bgSmall).1 rfl⟩

/-- When the whole image lies above the fixed 20-pixel top margin, the
sampled rectangle is entirely crop padding, so the brightness sample is
0 regardless of the pixel data. -/
theorem brightness_sample_below_image (image : Img) (lw lh : Nat)
    (hlw : 1 ≤ lw) (hlh : 1 ≤ lh) (hH : image.height ≤ 20) :
    brightness_sample image lw lh = some 0 := by
  have hsz := crop_region_size (convert image "RGB")
    (Int.fdiv ((image.width : Int) - (lw : Int)) 2) 20 lw lh
  have hne : ¬ lw * lh = 0 := by
    simp only [Nat.mul_eq_zero]
    omega
  simp only [brightness_sample, getdata, hsz.1, hsz.2, rowsList_length,
    rowsList_map_sum]
  rw [if_neg hne]
  have hrgbH : (convert image "RGB").height = image.height := rfl
  have hzero : ∑ y in Finset.range lh, ∑ x in Finset.range lw,
      get_perceptual_brightness ((crop (convert image "RGB")
        (Int.fdiv ((image.width : Int) - (lw : Int)) 2) 20
        (Int.fdiv ((image.width : Int) - (lw : Int)) 2 + (lw : Int))
        (20 + (lh : Int))).px x y) = 0 := by
    refine Finset.sum_eq_zero fun y hy => Finset.sum_eq_zero fun x hx => ?_
    have hpad : (crop (convert image "RGB")
        (Int.fdiv ((image.width : Int) - (lw : Int)) 2) 20
        (Int.fdiv ((image.width : Int) - (lw : Int)) 2 + (lw : Int))
        (20 + (lh : Int))).px x y = zeroPixel := by
      simp only [crop]
      rw [if_neg]
      rintro ⟨-, -, -, h4⟩
      rw [hrgbH] at h4
      omega
    rw [hpad]
    norm_num [get_perceptual_brightness, zeroPixel]
  rw [hzero, zero_div]

/-- C7, counterexample: a 5 × 5 all-white image with a 1 × 1 sampling
region violates the precondition `20 + regionHeight ≤ backgroundHeight`,
yet `evaluate_background_brightness` signals no error: the PIL crop pads
the out-of-range region with black pixels and the call returns the
classification `"dark"`. -/
theorem C7_counterexample_out_of_range :
    ¬ (20 + 1 ≤ smallWhite.height)
    ∧ evaluate_background_brightness smallWhite 1 1 = Except.ok "dark" := by
  refine ⟨by decide, ?_⟩
  have h : brightness_sample smallWhite 1 1 = some 0 :=
    brightness_sample_below_image smallWhite 1 1 (by decide) (by decide) (by decide)
  rw [evaluate_background_brightness, h]
  norm_num [classify_brightness]

/-- C7, amended: an out-of-range sampling region does not signal an
error — the crop primitive pads out-of-image coordinates with black
pixels and a classification is still returned whenever the region area
is at least 1 (in particular a single-pixel region divides by its pixel
count 1, never by zero); only a region of area 0 makes
`evaluate_background_brightness` signal an error instead of returning a
classification, and that error is the `ZeroDivisionError` of the
averaging step, not a geometry error from the crop. -/
theorem C7_area_guard (image : Img) (lw lh : Nat) :
    (1 ≤ lw → 1 ≤ lh →
      ∃ level, evaluate_background_brightness image lw lh = Except.ok level)
    ∧ (lw * lh = 0 →
      evaluate_background_brightness image lw lh
        = Except.error "ZeroDivisionError") := by
  have hsz := crop_region_size (convert image "RGB")
    (Int.fdiv ((image.width : Int) - (lw : Int)) 2) 20 lw lh
  constructor
  · intro hlw hlh
    have hne : ¬ (rowsList (crop (convert image "RGB")
        (Int.fdiv ((image.width : Int) - (lw : Int)) 2) 20
        (Int.fdiv ((image.width : Int) - (lw : Int)) 2 + (lw : Int))
        (20 + (lh : Int))).px lw lh).length = 0 := by
      rw [rowsList_length]
      simp only [Nat.mul_eq_zero]
      omega
    simp only [evaluate_background_brightness, brightness_sample, getdata,
      hsz.1, hsz.2]
    rw [if_neg hne]
    exact ⟨_, rfl⟩
  · intro harea
    have hz : (rowsList (crop (convert image "RGB")
        (Int.fdiv ((image.width : Int) - (lw : Int)) 2) 20
        (Int.fdiv ((image.width : Int) - (lw : Int)) 2 + (lw : Int))
        (20 + (lh : Int))).px lw lh).length = 0 := by
      rw [rowsList_length]; exact harea
    simp only [evaluate_background_brightness, brightness_sample, getdata,
      hsz.1, hsz.2]
    rw [if_pos hz]

/-- Witness for C7: a single-pixel region classifies, a zero-width
region signals the division error. -/
theorem C7_area_guard_witness :
    ((1 ≤ 1 ∧ ∃ level,
        evaluate_background_brightness smallWhite 1 1 = Except.ok level)
      ∧ (0 * 5 = 0 ∧ evaluate_background_brightness smallWhite 0 5
          = Except.error "ZeroDivisionError")) :=
  ⟨⟨by decide, (C7_area_guard smallWhite 1 1).1 (by decide) (by decide)⟩,
    ⟨by decide, (C7_area_guard smallWhite 0 5).2 (by decide)⟩⟩

/-- C8, counterexample: on a single-channel (mode `L`) background the
successful composite returns an RGB image — `add_logo_to_image` ends
with an unconditional conversion to RGB, not a conversion back to the
original color mode of the input. -/
theorem C8_counterexample_output_mode :
    grayBg.mode = "L"
    ∧ (add_logo_to_image (assetsWith (joinPath "logo" "dark_logo.png") rgbaLogo)
        "logo" false grayBg "light").mode = "RGB"
    ∧ ("RGB" : String) ≠ "L" := by
  have hdims : scaled_logo_dims grayBg.width rgbaLogo.width rgbaLogo.height
      = (20, 10) := by
    rw [scaled_logo_dims_eq grayBg.width rgbaLogo.width rgbaLogo.height
      (by decide) (by decide)]
    decide
  have hassets : assetsWith (joinPath "logo" "dark_logo.png") rgbaLogo
      (logoPathFor "logo" false "light") = some rgbaLogo := rfl
  have hrun : add_logo_to_image (assetsWith (joinPath "logo" "dark_logo.png") rgbaLogo)
      "logo" false grayBg "light"
      = convert (pasteData (convert grayBg "RGBA")
          (resize rgbaLogo (20, 10).1 (20, 10).2 logoResizeFilterUsed)
          (logo_paste_pos grayBg.width (20, 10).1)) "RGB" := by
    simp only [add_logo_to_image, hassets, hdims]
    rw [if_neg (by decide), if_neg (by decide)]
    rw [show pasteChecked (convert grayBg "RGBA")
        (resize rgbaLogo (20, 10).1 (20, 10).2 logoResizeFilterUsed)
        (logo_paste_pos grayBg.width (20, 10).1)
        = some (pasteData (convert grayBg "RGBA")
            (resize rgbaLogo (20, 10).1 (20, 10).2 logoResizeFilterUsed)
            (logo_paste_pos grayBg.width (20, 10).1)) from rfl]
  exact ⟨rfl, by rw [hrun]; rfl, by decide⟩

/-- C8, amended: a successful `add_logo_to_image` — overlay asset
present and decodable, overlay and scaled dimensions nonzero (so Pillow
`resize` does not raise), overlay usable as a transparency mask —
converts the background to the alpha-capable RGBA mode, alpha-composites
the scaled overlay onto that copy using the overlay itself — hence its
own alpha channel — as the blend mask, and converts the result to RGB
unconditionally before returning it; the output mode therefore matches
the mode of the input exactly when the input was RGB. -/
theorem C8_composite_pipeline (assets : String → Option Img) (folder : String)
    (hm : Bool) (image logo : Img) (cls : String)
    (hassets : assets (logoPathFor folder hm cls) = some logo)
    (hlw : 1 ≤ logo.width) (hlh : 1 ≤ logo.height)
    (hd1 : (scaled_logo_dims image.width logo.width logo.height).1 ≠ 0)
    (hd2 : (scaled_logo_dims image.width logo.width logo.height).2 ≠ 0)
    (hmask : logo.mode ∈ maskModes) :
    add_logo_to_image assets folder hm image cls
      = convert (pasteData (convert image "RGBA")
          (resize logo (scaled_logo_dims image.width logo.width logo.height).1
            (scaled_logo_dims image.width logo.width logo.height).2
            logoResizeFilterUsed)
          (logo_paste_pos image.width
            (scaled_logo_dims image.width logo.width logo.height).1)) "RGB"
    ∧ (add_logo_to_image assets folder hm image cls).mode = "RGB"
    ∧ (image.mode = "RGB" →
        (add_logo_to_image assets folder hm image cls).mode = image.mode) := by
  have hmode : (resize logo
      (scaled_logo_dims image.width logo.width logo.height).1
      (scaled_logo_dims image.width logo.width logo.height).2
      logoResizeFilterUsed).mode = logo.mode := rfl
  have hrun : add_logo_to_image assets folder hm image cls
      = convert (pasteData (convert image "RGBA")
          (resize logo (scaled_logo_dims image.width logo.width logo.height).1
            (scaled_logo_dims image.width logo.width logo.height).2
            logoResizeFilterUsed)
          (logo_paste_pos image.width
            (scaled_logo_dims image.width logo.width logo.height).1)) "RGB" := by
    simp only [add_logo_to_image, hassets]
    rw [if_neg (by omega), if_neg (fun hc => hc.elim hd1 hd2)]
    simp only [pasteChecked, hmode, if_pos hmask]
  refine ⟨hrun, by rw [hrun]; rfl, fun hrgb => by rw [hrun, hrgb]; rfl⟩

/-- Witness for C8: the RGBA logo composited onto the small RGB
background yields an RGB result whose mode matches the input. -/
theorem C8_composite_pipeline_witness :
    (assetsWith (joinPath "logo" "dark_logo.png") rgbaLogo
        (logoPathFor "logo" false "light") = some rgbaLogo
      ∧ 1 ≤ rgbaLogo.width ∧ 1 ≤ rgbaLogo.height
      ∧ scaled_logo_dims bgSmall.width rgbaLogo.width rgbaLogo.height = (20, 10)
      ∧ rgbaLogo.mode ∈ maskModes)
    ∧ (add_logo_to_image (assetsWith (joinPath "logo" "dark_logo.png") rgbaLogo)
        "logo" false bgSmall "light").mode = "RGB" := by
  have hdims : scaled_logo_dims bgSmall.width rgbaLogo.width rgbaLogo.height
      = (20, 10) := by
    rw [scaled_logo_dims_eq bgSmall.width rgbaLogo.width rgbaLogo.height
      (by decide) (by decide)]
    decide
  exact ⟨⟨rfl, by decide, by decide, hdims, by decide⟩,
    (C8_composite_pipeline (assetsWith (joinPath "logo" "dark_logo.png") rgbaLogo)
      "logo" false bgSmall rgbaLogo "light" rfl (by decide) (by decide)
      (by rw [hdims]; decide) (by rw [hdims]; decide) (by decide)).2.1⟩

/-- C9 (modelled from the spec; the glow pipeline is absent from the
source tree, which keeps only its `ImageFilter`/`ImageDraw` imports):
the glow rendering mode draws the filled ellipse on a transparent canvas
of size `(overlay.width + 600, overlay.height + 400)`, blurs it with
radius 100, composites the glow onto the background at the same
20-pixel top margin, and pastes the overlay at the fixed inset
`(100, 100)` from the glow canvas origin; the glow and plain-paste modes
are distinct, mutually exclusive strategies selected by the configured
mode of the caller. -/
theorem C9_glow_mode (bg ov : Img) (assets : String → Option Img)
    (folder : String) (hm : Bool) (cls : String) :
    glowCanvasSize ov = (ov.width + 600, ov.height + 400)
    ∧ glowBlurRadius = 100
    ∧ glowInset = (100, 100)
    ∧ (glowPos bg ov).2 = 20
    ∧ glowOverlayPos bg ov = ((glowPos bg ov).1 + 100, (glowPos bg ov).2 + 100)
    ∧ renderLogo RenderMode.plain assets folder hm bg ov cls
        = add_logo_to_image assets folder hm bg cls
    ∧ renderLogo RenderMode.glow assets folder hm bg ov cls
        = renderWithGlow bg ov
    ∧ (∀ m : RenderMode, m = RenderMode.plain ∨ m = RenderMode.glow)
    ∧ RenderMode.plain ≠ RenderMode.glow := by
  refine ⟨rfl, rfl, rfl, rfl, rfl, rfl, rfl, fun m => ?_, by decide⟩
  cases m
  · exact Or.inl rfl
  · exact Or.inr rfl

/-- C10: neither entry point mutates the object the caller passed in —
replayed on the object store, every write goes to a freshly allocated
object (the RGB copy, the cropped region, the opened logo, the resized
logo, the RGBA copy, the final RGB conversion) or, for `paste`, to the
RGBA copy; the entry at the input identity is untouched, and a composite
that gets past `resize` (overlay present with nonzero source and scaled
dimensions) returns an identity distinct from the input — the error
paths that return before the RGBA rebinding hand back the input object
itself, unmodified. -/
theorem C10_no_input_mutation (assets : String → Option Img) (folder : String)
    (hm : Bool) (s : PStore) (iid : Nat) (image : Img) (lw lh : Nat)
    (cls : String) (hlt : iid < s.next) (hdat : s.dat iid = some image) :
    (evaluate_background_brightness_st s iid lw lh).1.dat iid = some image
    ∧ (add_logo_to_image_st assets folder hm s iid cls).1.dat iid = some image
    ∧ (∀ logo, assets (logoPathFor folder hm cls) = some logo →
        1 ≤ logo.width → 1 ≤ logo.height →
        (scaled_logo_dims image.width logo.width logo.height).1 ≠ 0 →
        (scaled_logo_dims image.width logo.width logo.height).2 ≠ 0 →
        (add_logo_to_image_st assets folder hm s iid cls).2 ≠ iid) := by
  refine ⟨?_, ?_, ?_⟩
  · simp only [evaluate_background_brightness_st, hdat, alloc]
    rw [if_neg (by omega), if_neg (by omega)]
  · cases hassets : assets (logoPathFor folder hm cls) with
    | none => simp only [add_logo_to_image_st, hdat, hassets]
    | some logo =>
      by_cases hdeg : logo.width = 0 ∨ logo.height = 0
      · simp only [add_logo_to_image_st, hdat, hassets, if_pos hdeg, alloc]
        rw [if_neg (by omega)]
      · by_cases hdz : (scaled_logo_dims image.width logo.width logo.height).1 = 0
            ∨ (scaled_logo_dims image.width logo.width logo.height).2 = 0
        · simp only [add_logo_to_image_st, hdat, hassets, if_neg hdeg,
            if_pos hdz, alloc]
          rw [if_neg (by omega)]
        · simp only [add_logo_to_image_st, hdat, hassets, if_neg hdeg,
            if_neg hdz, alloc]
          cases hp : pasteChecked (convert image "RGBA")
              (resize logo (scaled_logo_dims image.width logo.width logo.height).1
                (scaled_logo_dims image.width logo.width logo.height).2
                logoResizeFilterUsed)
              (logo_paste_pos image.width
                (scaled_logo_dims image.width logo.width logo.height).1) with
          | none =>
            simp only [hp]
            rw [if_neg (by omega), if_neg (by omega), if_neg (by omega)]
            exact hdat
          | some pasted =>
            simp only [hp, setAt]
            rw [if_neg (by omega), if_neg (by omega), if_neg (by omega),
              if_neg (by omega), if_neg (by omega)]
            exact hdat
  · intro logo hassets hlw hlh hd1 hd2
    simp only [add_logo_to_image_st, hdat, hassets, alloc]
    rw [if_neg (by omega : ¬ (logo.width = 0 ∨ logo.height = 0)),
      if_neg (fun hc => hc.elim hd1 hd2)]
    cases hp : pasteChecked (convert image "RGBA")
        (resize logo (scaled_logo_dims image.width logo.width logo.height).1
          (scaled_logo_dims image.width logo.width logo.height).2
          logoResizeFilterUsed)
        (logo_paste_pos image.width
          (scaled_logo_dims image.width logo.width logo.height).1) with
    | none => simp only [hp]; omega
    | some pasted => simp only [hp, setAt]; omega

/-- Witness for C10 on the one-object store holding the small
background. -/
theorem C10_no_input_mutation_witness :
    (0 < store0.next ∧ store0.dat 0 = some bgSmall)
    ∧ (evaluate_background_brightness_st store0 0 4 2).1.dat 0 = some bgSmall
    ∧ (add_logo_to_image_st (assetsWith (joinPath "logo" "dark_logo.png") rgbaLogo)
        "logo" false store0 0 "light").1.dat 0 = some bgSmall
    ∧ (add_logo_to_image_st (assetsWith (joinPath "logo" "dark_logo.png") rgbaLogo)
        "logo" false store0 0 "light").2 ≠ 0 := by
  have hdims : scaled_logo_dims bgSmall.width rgbaLogo.width rgbaLogo.height
      = (20, 10) := by
    rw [scaled_logo_dims_eq bgSmall.width rgbaLogo.width rgbaLogo.height
      (by decide) (by decide)]
    decide
  have h := C10_no_input_mutation
    (assetsWith (joinPath "logo" "dark_logo.png") rgbaLogo) "logo" false
    store0 0 bgSmall 4 2 "light" (by decide) rfl
  exact ⟨⟨by decide, rfl⟩, h.1, h.2.1,
    h.2.2 rgbaLogo rfl (by decide) (by decide)
      (by rw [hdims]; decide) (by rw [hdims]; decide)⟩
